import Mathlib

/-!
# Verification of the Vipava Valley tourism visualization engine

Shallow embedding of the selection-and-aggregation core of `script.js`:
the derived tourism series (`updateLineChart`, CASE 1 / CASE 2 branches),
the derived bed series, the weather-station interaction state machine
(`updateMap` station click handler and `loadWeatherCSV`), and the brush
range-query service (`brushed`).

Numbers parsed with the JS unary `+` are modelled as rationals (`ℚ`);
month keys (`"2021M02"`) and municipality labels are strings.
-/

namespace Vipava

/-- One parsed row of `tourism.csv`: a municipality label, a month key, and
the per-country numeric columns (keys such as `"Austria (Arrivals)"`),
kept as an association list like the JS row object. -/
structure TourismRow where
  municipality : String
  month : String
  vals : List (String × ℚ)
deriving DecidableEq, Repr

/-- One parsed row of `beds.csv` (after `d.Year = +d.Year; d.Beds = +d.Beds`). -/
structure BedRow where
  municipality : String
  year : Int
  beds : ℚ
deriving DecidableEq, Repr

/-- A derived tourism series point, as built in `updateLineChart`
(`{ Municipality, Month, Arrivals, Overnights, AverageStay }`). -/
structure SeriesPoint where
  municipality : String
  month : String
  arrivals : ℚ
  overnights : ℚ
  averageStay : ℚ
deriving DecidableEq, Repr

/-- A derived bed series point (`{ Municipality, Year, Beds }`). -/
structure BedPoint where
  municipality : String
  year : Int
  beds : ℚ
deriving DecidableEq, Repr

/-- Column name `"<country> (Arrivals)"` (`keyArr` in `updateLineChart`). -/
def keyArr (country : String) : String := country ++ " (Arrivals)"

/-- Column name `"<country> (Overnight stays)"` (`keyOver` in `updateLineChart`). -/
def keyOver (country : String) : String := country ++ " (Overnight stays)"

/-- Value of column `k` in a tourism row.  A missing column reads as `0`,
matching how `d3.sum` treats `undefined`/`NaN` cells (they are skipped). -/
def rowVal (r : TourismRow) (k : String) : ℚ := (r.vals.lookup k).getD 0

/-- JS `s.trim()`: strip leading and trailing whitespace. -/
def strTrim (s : String) : String :=
  ⟨((s.data.dropWhile Char.isWhitespace).reverse.dropWhile Char.isWhitespace).reverse⟩

/-- JS `s.toLowerCase()`: lower-case every character. -/
def strLower (s : String) : String := ⟨s.data.map Char.toLower⟩

/-- JS `name.trim().toLowerCase()`, the normalization used when matching a
selected municipality against tourism rows. -/
def normName (s : String) : String := strLower (strTrim s)

/-- Lexicographic (code-point) strict comparison of character lists, the
order JS `<` induces on the month keys. -/
def lexLt : List Char → List Char → Bool
  | _, [] => false
  | [], _ :: _ => true
  | a :: as, b :: bs => if a < b then true else if b < a then false else lexLt as bs

/-- JS `a < b` on strings (the comparison inside `d3.ascending`). -/
def strLt (a b : String) : Bool := lexLt a.data b.data

/-- The ascending sort order on strings: `a` comes no later than `b`. -/
def strLe (a b : String) : Bool := !(strLt b a)

/-- Helper for `uniq`: `seen` is the set of elements already emitted. -/
def uniqAux {α : Type} [DecidableEq α] (seen : List α) : List α → List α
  | [] => []
  | a :: l => if a ∈ seen then uniqAux seen l else a :: uniqAux (a :: seen) l

/-- JS `Array.from(new Set(l))`: remove duplicates keeping the first occurrence
of each element, in order. -/
def uniq {α : Type} [DecidableEq α] (l : List α) : List α := uniqAux [] l

/-- JS `Array.from(new Set(tourismData.map(d => d.Month))).sort(d3.ascending)`:
the distinct month keys of the raw data in ascending (string) order. -/
def allMonthsSorted (rows : List TourismRow) : List String :=
  List.insertionSort (fun a b => strLe a b = true) (uniq (rows.map (·.month)))

/-- The month domain used by the chart: the sorted distinct months with the
first month removed (`allMonths.shift()` / `months.shift()`). -/
def chartMonths (rows : List TourismRow) : List String :=
  (allMonthsSorted rows).drop 1

/-- The chronologically earliest month key present in the raw tourism data
(head of the ascending-sorted distinct months). -/
def earliestBucket (rows : List TourismRow) : String :=
  (allMonthsSorted rows).headD ""

/-- JS `+d.split("M")[0]`: the year component of a month key. -/
def yearOf (m : String) : Int := (((m.splitOn "M").headD "").toInt?).getD 0

/-- JS `Array.from(new Set(months.map(d => +d.split("M")[0])))`: the years
spanned by the chart month domain. -/
def yearsOf (rows : List TourismRow) : List Int :=
  uniq ((chartMonths rows).map yearOf)

/-- The combined point for month `m` (the element CASE 1 of `updateLineChart`
builds inside `allMonths.map`): arrivals and overnight stays of the active
country summed over all rows of that month, with
`AverageStay = totalArr ? totalOver/totalArr : 0`. -/
def combinedPointAt (rows : List TourismRow) (country m : String) : SeriesPoint :=
  let rws := rows.filter (fun d => d.month = m)
  let totalArr := (rws.map (fun r => rowVal r (keyArr country))).sum
  let totalOver := (rws.map (fun r => rowVal r (keyOver country))).sum
  { municipality := "All Municipalities Combined"
    month := m
    arrivals := totalArr
    overnights := totalOver
    averageStay := if totalArr = 0 then 0 else totalOver / totalArr }

/-- CASE 1 of `updateLineChart` (no municipality selected): one combined
point per chart month. -/
def combinedSeries (rows : List TourismRow) (country : String) : List SeriesPoint :=
  (chartMonths rows).map (combinedPointAt rows country)

/-- The normalized point CASE 2 of `updateLineChart` builds from one raw row
of the selected municipality `m`. -/
def muniPoint (country m : String) (d : TourismRow) : SeriesPoint :=
  { municipality := m
    month := d.month
    arrivals := rowVal d (keyArr country)
    overnights := rowVal d (keyOver country)
    averageStay :=
      if rowVal d (keyArr country) = 0 then 0
      else rowVal d (keyOver country) / rowVal d (keyArr country) }

/-- CASE 2 of `updateLineChart` (municipality `m` selected): the rows whose
trimmed lower-cased label equals the trimmed lower-cased selection, sorted by
month ascending, each mapped to a point (no month dropped, no zero-filling). -/
def muniSeries (rows : List TourismRow) (country m : String) : List SeriesPoint :=
  (List.insertionSort (fun a b => strLe a.month b.month = true)
      (rows.filter (fun d => normName d.municipality = normName m))).map
    (muniPoint country m)

/-- The `datasets` array of `updateLineChart`: one combined group when the
selection is empty, otherwise one group per selected municipality. -/
def deriveTourismSeries (rows : List TourismRow) (selected : List String)
    (country : String) : List (List SeriesPoint) :=
  if selected.isEmpty then [combinedSeries rows country]
  else selected.map (muniSeries rows country)

/-- Combined bed series (no selection): for each chart year, the sum of
`Beds` over all bed rows of that year. -/
def combinedBedSeries (rows : List TourismRow) (bedsData : List BedRow) :
    List BedPoint :=
  (yearsOf rows).map (fun y =>
    { municipality := "All Municipalities Combined"
      year := y
      beds := ((bedsData.filter (fun d => d.year = y)).map (·.beds)).sum })

/-- Per-municipality bed series: bed rows whose label is exactly (`===`) the
selection, sorted by year ascending (no zero-filling of missing years). -/
def muniBedSeries (bedsData : List BedRow) (m : String) : List BedPoint :=
  (List.insertionSort (fun a b => a.year ≤ b.year)
      (bedsData.filter (fun d => d.municipality = m))).map
    (fun d => { municipality := m, year := d.year, beds := d.beds })

/-- The `bedDatasets` array of `updateLineChart`. -/
def deriveBedSeries (rows : List TourismRow) (bedsData : List BedRow)
    (selected : List String) : List (List BedPoint) :=
  if selected.isEmpty then [combinedBedSeries rows bedsData]
  else selected.map (muniBedSeries bedsData)

/-! ## Range query service (`brushed`) -/

/-- One per-group summary built by `brushed` for the brushed month range. -/
structure Summary where
  muni : String
  sumArr : ℚ
  sumOver : ℚ
  avgStay : ℚ
  bedsByYear : List (Int × ℚ)
deriving DecidableEq, Repr

/-- Placeholder used for `ds[0]` of an empty group (the JS would fault there;
no claim depends on that branch). -/
def dfltPoint : SeriesPoint :=
  { municipality := "", month := "", arrivals := 0, overnights := 0, averageStay := 0 }

/-- Summary of one group `ds` over the selected month keys `indices`:
`sub = ds.filter(d => indices.includes(d.Month))`, summed arrivals and
overnights, `avgStay = sumArr ? sumOver/sumArr : 0`, and per-year bed totals
for the years spanned by `indices` (summed over all municipalities for the
combined group, otherwise looked up by exact municipality and year with a
missing row reading as 0). -/
def summarize (bedsData : List BedRow) (indices : List String)
    (ds : List SeriesPoint) : Summary :=
  let muni := (ds.headD dfltPoint).municipality
  let sub := ds.filter (fun d => d.month ∈ indices)
  let sumArr := (sub.map (·.arrivals)).sum
  let sumOver := (sub.map (·.overnights)).sum
  let selectedYears := List.insertionSort (fun a b => a ≤ b) (uniq (indices.map yearOf))
  { muni := muni
    sumArr := sumArr
    sumOver := sumOver
    avgStay := if sumArr = 0 then 0 else sumOver / sumArr
    bedsByYear :=
      if muni = "All Municipalities Combined" then
        selectedYears.map (fun y =>
          (y, ((bedsData.filter (fun d => d.year = y)).map (·.beds)).sum))
      else
        selectedYears.map (fun y =>
          (y, ((bedsData.find? (fun d => d.municipality = muni ∧ d.year = y)).map
                (·.beds)).getD 0)) }

/-- The range query of `brushed`: given the month keys inside the brush and
the current `datasets`, either the distinguished "no result" outcome (empty
month list: the tooltip is hidden and the handler returns) or one summary per
group, preserving group order. -/
def brushSummaries (bedsData : List BedRow) (indices : List String)
    (datasets : List (List SeriesPoint)) : Option (List Summary) :=
  if indices.isEmpty then none
  else some (datasets.map (summarize bedsData indices))

/-! ## Weather station interaction (`updateMap` click handler,
`loadWeatherCSV`, `populateWeatherDropdown`)

The observations of a station are modelled post-normalization: each row carries
its normalized `Month` (`none` when the raw `month` column was missing, which
emits a `console.warn`) and its numeric-typed fields.  The environment
`env : String → FetchResult` says what `d3.csv` produces for each station id:
`failure` for a thrown network/parse error (caught, one `console.error`), or
the parsed rows. -/

/-- One normalized weather CSV row. -/
structure WRow where
  month : Option String
  numeric : List (String × ℚ)
deriving DecidableEq, Repr

/-- Outcome of the `d3.csv` fetch for one station. -/
inductive FetchResult
  | failure
  | success (rows : List WRow)
deriving DecidableEq, Repr

/-- Model of `loadWeatherCSV`: on a thrown error, log once and return `null`; on an
empty parse, return `null` silently; otherwise return the rows, with one
`console.warn` per row whose `month` column was missing.  The second
component counts emitted diagnostics. -/
def loadWeatherCSV (env : String → FetchResult) (station : String) :
    Option (List WRow) × Nat :=
  match env station with
  | .failure => (none, 1)
  | .success data =>
      if data.isEmpty then (none, 0)
      else (some data, data.countP (fun r => r.month = none))

/-- Attribute discovery of `populateWeatherDropdown`: the keys of the
numeric-typed fields of the first row. -/
def numericKeys (data : List WRow) : List String :=
  (data.headD { month := none, numeric := [] }).numeric.map Prod.fst

/-- The mutable state touched by the station click handler: the metric layer
toggles, the active-station triple, the discovered attribute list, the set of
in-flight fetches, and a count of emitted diagnostics. -/
structure WState where
  showArrivals : Bool
  showOvernights : Bool
  showAverageStays : Bool
  showBeds : Bool
  showWeather : Bool
  activeWeatherStation : Option String
  activeWeatherData : Option (List WRow)
  activeWeatherAttribute : Option String
  weatherAttributes : List String
  pending : List String
  diagnostics : Nat
deriving DecidableEq, Repr

/-- The initial page state: nothing selected, nothing pending. -/
def initW : WState :=
  { showArrivals := true, showOvernights := true, showAverageStays := true
    showBeds := true, showWeather := true
    activeWeatherStation := none, activeWeatherData := none
    activeWeatherAttribute := none, weatherAttributes := []
    pending := [], diagnostics := 0 }

/-- Events of the single-threaded event loop: a station circle click, and the
completion of a pending fetch for a station. -/
inductive WEvent
  | click (station : String)
  | resolve (station : String)
deriving DecidableEq, Repr

/-- One event step.

`click s`: if `s` is already the active station, the handler clears the
active-station fields and returns (the in-flight fetch, if any, is NOT
cancelled).  Otherwise it force-enables the weather toggle
(`d3.select("#toggle-weather").property("checked", true); showWeather = true`),
sets `activeWeatherStation = d` and starts the fetch; everything after
`await loadWeatherCSV(d)` runs at the matching `resolve` event.

`resolve s`: the continuation of the earliest pending click on `s` runs with
the fetch outcome.  On `null` data it just returns (`if (!weatherData) return`);
otherwise it commits unconditionally: `weatherAttributes`,
`activeWeatherData`, `activeWeatherAttribute = weatherAttributes[0]` —
without checking that `s` is still the active station. -/
def wstep (env : String → FetchResult) (st : WState) : WEvent → WState
  | .click s =>
      if st.activeWeatherStation = some s then
        { st with activeWeatherStation := none
                  activeWeatherData := none
                  activeWeatherAttribute := none }
      else
        { st with showWeather := true
                  activeWeatherStation := some s
                  pending := st.pending ++ [s] }
  | .resolve s =>
      if s ∈ st.pending then
        let st1 := { st with pending := st.pending.erase s }
        match loadWeatherCSV env s with
        | (none, d) => { st1 with diagnostics := st1.diagnostics + d }
        | (some data, d) =>
            { st1 with diagnostics := st1.diagnostics + d
                       weatherAttributes := numericKeys data
                       activeWeatherData := some data
                       activeWeatherAttribute := (numericKeys data).head? }
      else st

/-- Run a sequence of events from a state. -/
def wrun (env : String → FetchResult) (st : WState) (evs : List WEvent) : WState :=
  evs.foldl (wstep env) st

/-! ## Concrete sample data used to instantiate the theorems -/

/-- Two municipalities over two months; the `2021M02`-style scenario of the
spec shifted to `2020M02` (with `2020M01` as the dropped baseline). -/
def exRows : List TourismRow :=
  [ { municipality := "A", month := "2020M01"
      vals := [("X (Arrivals)", 2), ("X (Overnight stays)", 4)] },
    { municipality := "B", month := "2020M01"
      vals := [("X (Arrivals)", 1), ("X (Overnight stays)", 3)] },
    { municipality := "A", month := "2020M02"
      vals := [("X (Arrivals)", 10), ("X (Overnight stays)", 20)] },
    { municipality := "B", month := "2020M02"
      vals := [("X (Arrivals)", 0), ("X (Overnight stays)", 5)] } ]

/-- Municipality `A` has data only in the baseline month; `B` spans three
months, so the chart domain is `[2020M02, 2020M03]`. -/
def exRows3 : List TourismRow :=
  [ { municipality := "A", month := "2020M01"
      vals := [("X (Arrivals)", 7), ("X (Overnight stays)", 9)] },
    { municipality := "B", month := "2020M01"
      vals := [("X (Arrivals)", 1), ("X (Overnight stays)", 1)] },
    { municipality := "B", month := "2020M02"
      vals := [("X (Arrivals)", 2), ("X (Overnight stays)", 2)] },
    { municipality := "B", month := "2020M03"
      vals := [("X (Arrivals)", 3), ("X (Overnight stays)", 3)] } ]

/-- One municipality whose label differs from the tested selection only in
case and surrounding whitespace. -/
def exRows5 : List TourismRow :=
  [ { municipality := "ajdovščina", month := "2020M01"
      vals := [("X (Arrivals)", 1), ("X (Overnight stays)", 2)] } ]

/-- A bed row whose label matches the tested selection up to case. -/
def exBeds5 : List BedRow := [ { municipality := "ajdovščina", year := 2020, beds := 100 } ]

/-- Municipality `A` with a row in the dropped baseline month and one in the
chart domain. -/
def exRows6 : List TourismRow :=
  [ { municipality := "A", month := "2020M01"
      vals := [("X (Arrivals)", 5), ("X (Overnight stays)", 10)] },
    { municipality := "A", month := "2020M02"
      vals := [("X (Arrivals)", 3), ("X (Overnight stays)", 6)] } ]

/-- A weather row as fetched for station `s1`. -/
def w1 : WRow := { month := some "2020M01", numeric := [("temperature", 5)] }

/-- A weather row as fetched for station `s2`. -/
def w2 : WRow := { month := some "2020M01", numeric := [("temperature", 7)] }

/-- Environment for the race scenario: both `s1` and `s2` fetch successfully. -/
def env8 : String → FetchResult := fun s =>
  if s = "s1" then .success [w1] else if s = "s2" then .success [w2] else .failure

/-- Environment where only station `s0` fetches successfully. -/
def env9 : String → FetchResult := fun s =>
  if s = "s0" then .success [w1] else .failure

/-- Environment where every fetch fails. -/
def env0 : String → FetchResult := fun _ => FetchResult.failure

/-- The state after successfully loading station `s0`. -/
def stW : WState := wrun env9 initW [WEvent.click "s0", WEvent.resolve "s0"]

/-- A state whose Weather layer toggle is off. -/
def stC10 : WState := { initW with showWeather := false }

/-- The municipalities occurring in the raw tourism data, first occurrence
order (the key set the combined aggregation sums over). -/
def regionsPresent (rows : List TourismRow) : List String :=
  uniq (rows.map (·.municipality))

/-- The total of column `key` over the rows of municipality `u` in month `m`:
the per-region contribution the combined point at `m` should add up. -/
def regionMonthTotal (rows : List TourismRow) (key u m : String) : ℚ :=
  (((rows.filter (fun r => r.month = m)).filter (fun r => r.municipality = u)).map
    (fun r => rowVal r key)).sum

/-! ## Order facts about the lexicographic month comparison -/

theorem lexLt_irrefl : ∀ l : List Char, lexLt l l = false := by
  intro l
  induction l with
  | nil => rfl
  | cons a as ih => simp [lexLt, lt_irrefl a, ih]

theorem lexLt_asymm : ∀ x y : List Char, lexLt x y = true → lexLt y x = false := by
  intro x
  induction x with
  | nil =>
    intro y h
    cases y with
    | nil => simp [lexLt] at h
    | cons b bs => rfl
  | cons a as ih =>
    intro y h
    cases y with
    | nil => simp [lexLt] at h
    | cons b bs =>
      by_cases hab : a < b
      · simp [lexLt, hab, asymm hab]
      · by_cases hba : b < a
        · simp [lexLt, hab, hba] at h
        · simp only [lexLt, if_neg hab, if_neg hba] at h
          simp only [lexLt, if_neg hba, if_neg hab]
          exact ih bs h

theorem lexLt_connex : ∀ x y : List Char, lexLt x y = false → lexLt y x = false → x = y := by
  intro x
  induction x with
  | nil =>
    intro y h1 _
    cases y with
    | nil => rfl
    | cons b bs => simp [lexLt] at h1
  | cons a as ih =>
    intro y h1 h2
    cases y with
    | nil => simp [lexLt] at h2
    | cons b bs =>
      by_cases hab : a < b
      · simp [lexLt, hab] at h1
      · by_cases hba : b < a
        · simp [lexLt, hba] at h2
        · have hEq : a = b := le_antisymm (le_of_not_lt hba) (le_of_not_lt hab)
          subst hEq
          simp only [lexLt, if_neg hab, if_neg hba] at h1 h2
          rw [ih bs h1 h2]

theorem lexLt_trans :
    ∀ x y z : List Char, lexLt x y = true → lexLt y z = true → lexLt x z = true := by
  intro x
  induction x with
  | nil =>
    intro y z h1 h2
    cases y with
    | nil => simp [lexLt] at h1
    | cons b bs =>
      cases z with
      | nil => simp [lexLt] at h2
      | cons c cs => rfl
  | cons a as ih =>
    intro y z h1 h2
    cases y with
    | nil => simp [lexLt] at h1
    | cons b bs =>
      cases z with
      | nil => simp [lexLt] at h2
      | cons c cs =>
        by_cases hab : a < b
        · by_cases hbc : b < c
          · simp [lexLt, lt_trans hab hbc]
          · by_cases hcb : c < b
            · simp [lexLt, hbc, hcb] at h2
            · have : b = c := le_antisymm (le_of_not_lt hcb) (le_of_not_lt hbc)
              subst this
              simp [lexLt, hab]
        · by_cases hba : b < a
          · simp [lexLt, hab, hba] at h1
          · have hEq : a = b := le_antisymm (le_of_not_lt hba) (le_of_not_lt hab)
            subst hEq
            simp only [lexLt, if_neg hab, if_neg hba] at h1
            by_cases hac : a < c
            · simp [lexLt, hac]
            · by_cases hca : c < a
              · simp [lexLt, hac, hca] at h2
              · simp only [lexLt, if_neg hac, if_neg hca] at h2 ⊢
                exact ih bs cs h1 h2

theorem strLe_total : ∀ a b : String, strLe a b = true ∨ strLe b a = true := by
  intro a b
  by_cases h : strLt b a = true
  · right
    have := lexLt_asymm b.data a.data h
    simp [strLe, strLt, this]
  · left
    simp only [strLe, strLt] at h ⊢
    simp [Bool.not_eq_true] at h
    simp [h]

theorem strLe_trans :
    ∀ a b c : String, strLe a b = true → strLe b c = true → strLe a c = true := by
  intro a b c h1 h2
  simp only [strLe, strLt, Bool.not_eq_true'] at h1 h2 ⊢
  by_cases hcb : lexLt c.data b.data = true
  · rw [h2] at hcb
    exact absurd hcb (by simp)
  · by_cases hbc : lexLt b.data c.data = true
    · by_cases hca : lexLt c.data a.data = true
      · have := lexLt_trans c.data a.data b.data hca ?hab
        · rw [h2] at this
          exact absurd this (by simp)
        · by_cases hab : lexLt a.data b.data = true
          · exact hab
          · have : a.data = b.data := lexLt_connex a.data b.data (by simpa using hab) h1
            rw [this] at hca
            rw [h2] at hca
            exact absurd hca (by simp)
      · simpa using hca
    · have hbcEq : b.data = c.data :=
        lexLt_connex b.data c.data (by simpa using hbc) (by simpa using hcb)
      rw [← hbcEq]
      exact h1

/-! ## Facts about `uniq` -/

theorem mem_uniqAux {α : Type} [DecidableEq α] :
    ∀ (seen l : List α) (a : α), a ∈ uniqAux seen l ↔ a ∈ l ∧ a ∉ seen := by
  intro seen l
  induction l generalizing seen with
  | nil => simp [uniqAux]
  | cons b bs ih =>
    intro a
    by_cases hb : b ∈ seen
    · simp only [uniqAux, if_pos hb, ih seen a, List.mem_cons]
      constructor
      · rintro ⟨h1, h2⟩
        exact ⟨Or.inr h1, h2⟩
      · rintro ⟨h1 | h1, h2⟩
        · exact absurd (h1 ▸ hb) h2
        · exact ⟨h1, h2⟩
    · simp only [uniqAux, if_neg hb, List.mem_cons, ih (b :: seen) a]
      constructor
      · rintro (rfl | ⟨h1, h2⟩)
        · exact ⟨Or.inl rfl, hb⟩
        · constructor
          · exact Or.inr h1
          · intro hc
            exact h2 (Or.inr hc)
      · rintro ⟨rfl | h1, h2⟩
        · exact Or.inl rfl
        · by_cases hab : a = b
          · exact Or.inl hab
          · refine Or.inr ⟨h1, fun hc => ?_⟩
            rcases hc with h | h
            · exact hab h
            · exact h2 h

theorem mem_uniq {α : Type} [DecidableEq α] (l : List α) (a : α) :
    a ∈ uniq l ↔ a ∈ l := by
  simp [uniq, mem_uniqAux]

theorem nodup_uniqAux {α : Type} [DecidableEq α] :
    ∀ (seen l : List α), (uniqAux seen l).Nodup := by
  intro seen l
  induction l generalizing seen with
  | nil => simp [uniqAux]
  | cons b bs ih =>
    by_cases hb : b ∈ seen
    · simpa [uniqAux, if_pos hb] using ih seen
    · simp only [uniqAux, if_neg hb, List.nodup_cons]
      refine ⟨fun hc => ?_, ih (b :: seen)⟩
      have := (mem_uniqAux (b :: seen) bs b).1 hc
      exact this.2 (List.mem_cons_self b seen)

theorem nodup_uniq {α : Type} [DecidableEq α] (l : List α) : (uniq l).Nodup :=
  nodup_uniqAux [] l

/-! ## Summing a list fiberwise over a key -/

theorem sum_map_filter_add {β : Type} (f : β → ℚ) (p : β → Bool) :
    ∀ L : List β,
      (L.map f).sum
        = ((L.filter p).map f).sum + ((L.filter (fun b => !(p b))).map f).sum := by
  intro L
  induction L with
  | nil => simp
  | cons b bs ih =>
    by_cases hp : p b = true
    · simp [List.filter_cons, hp, ih]
      ring
    · simp [List.filter_cons, hp, ih]
      ring

/-- Summing `f` over `L` equals summing, over a duplicate-free list of keys
covering the key of every element, the fiberwise sums of `f` per key. -/
theorem sum_fiberwise {α β : Type} [DecidableEq α] (f : β → ℚ) (g : β → α) :
    ∀ (keys : List α) (L : List β), keys.Nodup → (∀ b ∈ L, g b ∈ keys) →
      (L.map f).sum
        = (keys.map (fun u => ((L.filter (fun b => g b = u)).map f).sum)).sum := by
  intro keys
  induction keys with
  | nil =>
    intro L _ hcov
    have : L = [] := List.eq_nil_iff_forall_not_mem.2 (fun b hb => by simpa using hcov b hb)
    simp [this]
  | cons u ks ih =>
    intro L hnd hcov
    rw [List.nodup_cons] at hnd
    have hsplit := sum_map_filter_add f (fun b => decide (g b = u)) L
    have hcov2 : ∀ b ∈ L.filter (fun b => !(decide (g b = u))), g b ∈ ks := by
      intro b hb
      rw [List.mem_filter] at hb
      have := hcov b hb.1
      rw [List.mem_cons] at this
      rcases this with h | h
      · exact absurd (by simpa using h) (by simpa using hb.2)
      · exact h
    have hfib : ∀ u' ∈ ks,
        (((L.filter (fun b => !(decide (g b = u)))).filter
            (fun b => g b = u')).map f).sum
          = ((L.filter (fun b => g b = u')).map f).sum := by
      intro u' hu'
      have hne : u ≠ u' := fun hc => hnd.1 (hc ▸ hu')
      refine congrArg (fun t => (List.map f t).sum) ?_
      rw [List.filter_filter]
      apply List.filter_congr
      intro b _
      by_cases hgb : g b = u'
      · simp only [hgb, decide_eq_true_eq]
        simp only [decide_eq_true_eq] at *
        have : ¬ u' = u := fun hc => hne hc.symm
        simp [this]
      · simp [hgb]
    calc (L.map f).sum
        = ((L.filter (fun b => decide (g b = u))).map f).sum
            + ((L.filter (fun b => !(decide (g b = u)))).map f).sum := hsplit
      _ = ((L.filter (fun b => decide (g b = u))).map f).sum
            + (ks.map (fun u' =>
                (((L.filter (fun b => !(decide (g b = u)))).filter
                    (fun b => g b = u')).map f).sum)).sum := by
            rw [← ih (L.filter (fun b => !(decide (g b = u)))) hnd.2 hcov2]
      _ = ((u :: ks).map (fun u' => ((L.filter (fun b => g b = u')).map f).sum)).sum := by
            rw [List.map_cons, List.sum_cons]
            congr 1
            exact congrArg List.sum (List.map_congr_left hfib)

/-! ## Simple unfolding facts -/

theorem nodup_allMonthsSorted (rows : List TourismRow) : (allMonthsSorted rows).Nodup :=
  (List.perm_insertionSort _ _).nodup_iff.2 (nodup_uniq _)

theorem deriveTourismSeries_empty_sel (rows : List TourismRow) (country : String) :
    deriveTourismSeries rows [] country = [combinedSeries rows country] := rfl

theorem combinedPointAt_month (rows : List TourismRow) (country m : String) :
    (combinedPointAt rows country m).month = m := rfl

theorem combinedPointAt_arrivals (rows : List TourismRow) (country m : String) :
    (combinedPointAt rows country m).arrivals
      = ((rows.filter (fun d => d.month = m)).map (fun r => rowVal r (keyArr country))).sum := rfl

theorem combinedPointAt_overnights (rows : List TourismRow) (country m : String) :
    (combinedPointAt rows country m).overnights
      = ((rows.filter (fun d => d.month = m)).map (fun r => rowVal r (keyOver country))).sum := rfl

theorem summarize_sumArr (bedsData : List BedRow) (indices : List String)
    (ds : List SeriesPoint) :
    (summarize bedsData indices ds).sumArr
      = ((ds.filter (fun d => d.month ∈ indices)).map (·.arrivals)).sum := rfl

theorem summarize_sumOver (bedsData : List BedRow) (indices : List String)
    (ds : List SeriesPoint) :
    (summarize bedsData indices ds).sumOver
      = ((ds.filter (fun d => d.month ∈ indices)).map (·.overnights)).sum := rfl

theorem summarize_avgStay (bedsData : List BedRow) (indices : List String)
    (ds : List SeriesPoint) :
    (summarize bedsData indices ds).avgStay
      = (if (summarize bedsData indices ds).sumArr = 0 then 0
         else (summarize bedsData indices ds).sumOver
                / (summarize bedsData indices ds).sumArr) := rfl

/-! ## Claim C1 -/

/-- C1: with an empty region selection, `deriveTourismSeries` yields exactly
one group, the combined pseudo-region, with one point per chart bucket whose
arrivals and overnights are the sums of the per-region
totals over all regions present in the raw data, and whose average stay is
derived from those sums (sum-then-divide). -/
theorem combined_series_is_grand_total (rows : List TourismRow) (country : String) :
    (deriveTourismSeries rows [] country).length = 1
    ∧ ((deriveTourismSeries rows [] country).headD []).map (·.month) = chartMonths rows
    ∧ ∀ p ∈ (deriveTourismSeries rows [] country).headD [],
        p.municipality = "All Municipalities Combined"
        ∧ p.arrivals = ((regionsPresent rows).map
            (fun u => regionMonthTotal rows (keyArr country) u p.month)).sum
        ∧ p.overnights = ((regionsPresent rows).map
            (fun u => regionMonthTotal rows (keyOver country) u p.month)).sum
        ∧ p.averageStay = (if p.arrivals = 0 then 0 else p.overnights / p.arrivals) := by
  refine ⟨rfl, ?_, ?_⟩
  · rw [deriveTourismSeries_empty_sel, List.headD_cons, combinedSeries, List.map_map]
    exact List.map_id' (chartMonths rows)
  · intro p hp
    rw [deriveTourismSeries_empty_sel, List.headD_cons, combinedSeries] at hp
    obtain ⟨m, hm, rfl⟩ := List.mem_map.1 hp
    refine ⟨rfl, ?_, ?_, rfl⟩
    · rw [combinedPointAt_month, combinedPointAt_arrivals]
      exact sum_fiberwise (fun r => rowVal r (keyArr country)) (fun r => r.municipality)
        (regionsPresent rows) (rows.filter (fun d => d.month = m)) (nodup_uniq _)
        (fun b hb => (mem_uniq _ _).2
          (List.mem_map_of_mem (fun r => r.municipality) (List.mem_of_mem_filter hb)))
    · rw [combinedPointAt_month, combinedPointAt_overnights]
      exact sum_fiberwise (fun r => rowVal r (keyOver country)) (fun r => r.municipality)
        (regionsPresent rows) (rows.filter (fun d => d.month = m)) (nodup_uniq _)
        (fun b hb => (mem_uniq _ _).2
          (List.mem_map_of_mem (fun r => r.municipality) (List.mem_of_mem_filter hb)))

/-- Witness for C1 at the sample data: the combined point of `2020M02`. -/
theorem combined_series_is_grand_total_witness :
    combinedPointAt exRows "X" "2020M02" ∈ (deriveTourismSeries exRows [] "X").headD []
    ∧ ((combinedPointAt exRows "X" "2020M02").municipality = "All Municipalities Combined"
        ∧ (combinedPointAt exRows "X" "2020M02").arrivals = ((regionsPresent exRows).map
            (fun u => regionMonthTotal exRows (keyArr "X") u
              (combinedPointAt exRows "X" "2020M02").month)).sum
        ∧ (combinedPointAt exRows "X" "2020M02").overnights = ((regionsPresent exRows).map
            (fun u => regionMonthTotal exRows (keyOver "X") u
              (combinedPointAt exRows "X" "2020M02").month)).sum
        ∧ (combinedPointAt exRows "X" "2020M02").averageStay
            = (if (combinedPointAt exRows "X" "2020M02").arrivals = 0 then 0
               else (combinedPointAt exRows "X" "2020M02").overnights
                      / (combinedPointAt exRows "X" "2020M02").arrivals)) :=
  have hmem : combinedPointAt exRows "X" "2020M02"
      ∈ (deriveTourismSeries exRows [] "X").headD [] :=
    List.mem_map_of_mem (combinedPointAt exRows "X")
      (show "2020M02" ∈ chartMonths exRows by decide)
  ⟨hmem, (combined_series_is_grand_total exRows "X").2.2 _ hmem⟩

/-! ## Claim C2 -/

/-- C2 counterexample: with municipality `A` selected, the derived per-region
series still contains a point for the chronologically earliest bucket
(`2020M01`) — the baseline month is dropped only from the combined series and
the axis domain, not from per-region series. -/
theorem per_region_series_keeps_earliest_bucket :
    ∃ g ∈ deriveTourismSeries exRows ["A"] "X", ∃ p ∈ g,
      p.month = earliestBucket exRows := by decide

/-- C2 amended: only the combined (empty-selection) series is guaranteed to
exclude the chronologically earliest bucket; that bucket is also absent from
the chart month domain. -/
theorem combined_series_drops_earliest_bucket (rows : List TourismRow) (country : String) :
    earliestBucket rows ∉ chartMonths rows
    ∧ ∀ p ∈ (deriveTourismSeries rows [] country).headD [],
        p.month ≠ earliestBucket rows := by
  have hnd : (allMonthsSorted rows).Nodup := nodup_allMonthsSorted rows
  have hmain : earliestBucket rows ∉ chartMonths rows := by
    cases hS : allMonthsSorted rows with
    | nil => simp [chartMonths, hS]
    | cons a t =>
      rw [hS] at hnd
      rw [List.nodup_cons] at hnd
      simpa [chartMonths, earliestBucket, hS] using hnd.1
  refine ⟨hmain, ?_⟩
  intro p hp
  rw [deriveTourismSeries_empty_sel, List.headD_cons, combinedSeries] at hp
  obtain ⟨m, hm, rfl⟩ := List.mem_map.1 hp
  rw [combinedPointAt_month]
  exact fun hEq => hmain (hEq ▸ hm)

/-- Witness for the amended C2 at the sample data. -/
theorem combined_series_drops_earliest_bucket_witness :
    earliestBucket exRows ∉ chartMonths exRows
    ∧ (combinedPointAt exRows "X" "2020M02").month ≠ earliestBucket exRows :=
  have hmem : combinedPointAt exRows "X" "2020M02"
      ∈ (deriveTourismSeries exRows [] "X").headD [] :=
    List.mem_map_of_mem (combinedPointAt exRows "X")
      (show "2020M02" ∈ chartMonths exRows by decide)
  ⟨(combined_series_drops_earliest_bucket exRows "X").1,
    (combined_series_drops_earliest_bucket exRows "X").2 _ hmem⟩

/-! ## Claim C3 -/

/-- C3 counterexample: `2020M02` is in the chart month domain, but the
derived series of the selected municipality `A` has no point for it at all —
a missing raw row is omitted, not filled with a zero-valued point. -/
theorem sparse_region_bucket_is_omitted :
    "2020M02" ∈ chartMonths exRows3
    ∧ "2020M02" ∉ ((deriveTourismSeries exRows3 ["A"] "X").headD []).map (·.month) := by
  decide

/-- C3 amended: the bucket multiset of the derived tourism series of a
selected region equals exactly the months of the raw rows of that region (sorted
ascending), and likewise the year multiset of its bed series equals exactly
the years of its exact-match bed rows: sparse months/years are omitted, not
zero-filled, and the baseline month is not removed. -/
theorem per_region_series_mirrors_raw_rows (rows : List TourismRow)
    (bedsData : List BedRow) (country u : String) :
    ((muniSeries rows country u).map (·.month)).Perm
        ((rows.filter (fun r => normName r.municipality = normName u)).map (·.month))
    ∧ ((muniSeries rows country u).map (·.month)).Sorted (fun a b => strLe a b = true)
    ∧ ((muniBedSeries bedsData u).map (·.year)).Perm
        ((bedsData.filter (fun r => r.municipality = u)).map (·.year))
    ∧ ((muniBedSeries bedsData u).map (·.year)).Sorted (fun a b => a ≤ b) := by
  haveI hTot : IsTotal TourismRow (fun a b => strLe a.month b.month = true) :=
    ⟨fun a b => strLe_total a.month b.month⟩
  haveI hTr : IsTrans TourismRow (fun a b => strLe a.month b.month = true) :=
    ⟨fun a b c => strLe_trans a.month b.month c.month⟩
  haveI hTotB : IsTotal BedRow (fun a b => a.year ≤ b.year) :=
    ⟨fun a b => le_total a.year b.year⟩
  haveI hTrB : IsTrans BedRow (fun a b => a.year ≤ b.year) :=
    ⟨fun a b c => le_trans⟩
  have hcompT : ((fun x : SeriesPoint => x.month) ∘ muniPoint country u)
      = fun d : TourismRow => d.month := rfl
  have hcompB : ((fun x : BedPoint => x.year)
        ∘ (fun d : BedRow => { municipality := u, year := d.year, beds := d.beds }))
      = fun d : BedRow => d.year := rfl
  refine ⟨?_, ?_, ?_, ?_⟩
  · rw [muniSeries, List.map_map, hcompT]
    exact (List.perm_insertionSort _ _).map (fun d : TourismRow => d.month)
  · rw [muniSeries, List.map_map, hcompT]
    exact List.Pairwise.map (fun d : TourismRow => d.month)
      (fun (a b : TourismRow) (h : strLe a.month b.month = true) => h)
      (List.sorted_insertionSort _ _)
  · rw [muniBedSeries, List.map_map, hcompB]
    exact (List.perm_insertionSort _ _).map (fun d : BedRow => d.year)
  · rw [muniBedSeries, List.map_map, hcompB]
    exact List.Pairwise.map (fun d : BedRow => d.year)
      (fun (a b : BedRow) (h : a.year ≤ b.year) => h)
      (List.sorted_insertionSort _ _)

/-! ## Claim C4 -/

/-- Every point of every derived tourism group carries the ratio guard:
its average stay is the guarded quotient of its own fields. -/
theorem derived_point_avg_guard (rows : List TourismRow) (selected : List String)
    (country : String) :
    ∀ g ∈ deriveTourismSeries rows selected country, ∀ p ∈ g,
      p.averageStay = (if p.arrivals = 0 then 0 else p.overnights / p.arrivals) := by
  intro g hg p hp
  rw [deriveTourismSeries] at hg
  by_cases hsel : selected.isEmpty
  · rw [if_pos hsel] at hg
    rw [List.mem_singleton.1 hg, combinedSeries] at hp
    obtain ⟨m, _, rfl⟩ := List.mem_map.1 hp
    rfl
  · rw [if_neg hsel] at hg
    obtain ⟨u, _, rfl⟩ := List.mem_map.1 hg
    rw [muniSeries] at hp
    obtain ⟨d, _, rfl⟩ := List.mem_map.1 hp
    rfl

/-- C4: for every derived series point in every group and every range-query
summary, a zero arrivals count yields an average stay of exactly `0` (never
an undefined value), and a positive arrivals count yields
`overnights / arrivals`. -/
theorem average_stay_division_guard (rows : List TourismRow) (selected : List String)
    (country : String) (bedsData : List BedRow) (indices : List String)
    (datasets : List (List SeriesPoint)) :
    (∀ g ∈ deriveTourismSeries rows selected country, ∀ p ∈ g,
        (p.arrivals = 0 → p.averageStay = 0)
        ∧ (0 < p.arrivals → p.averageStay = p.overnights / p.arrivals))
    ∧ (∀ out, brushSummaries bedsData indices datasets = some out →
        ∀ s ∈ out,
          (s.sumArr = 0 → s.avgStay = 0)
          ∧ (0 < s.sumArr → s.avgStay = s.sumOver / s.sumArr)) := by
  constructor
  · intro g hg p hp
    have h := derived_point_avg_guard rows selected country g hg p hp
    constructor
    · intro h0
      rw [h, if_pos h0]
    · intro hpos
      rw [h, if_neg (ne_of_gt hpos)]
  · intro out hout s hs
    rw [brushSummaries] at hout
    by_cases hidx : indices.isEmpty
    · rw [if_pos hidx] at hout
      exact absurd hout (by simp)
    · rw [if_neg hidx, Option.some_inj] at hout
      rw [← hout] at hs
      obtain ⟨ds, _, rfl⟩ := List.mem_map.1 hs
      have h := summarize_avgStay bedsData indices ds
      constructor
      · intro h0
        rw [h, if_pos h0]
      · intro hpos
        rw [h, if_neg (ne_of_gt hpos)]

/-- Witness for C4: the combined `2020M02` point of the sample data and the
summary of the combined group over the full chart domain. -/
theorem average_stay_division_guard_witness :
    (((combinedPointAt exRows "X" "2020M02").arrivals = 0
        → (combinedPointAt exRows "X" "2020M02").averageStay = 0)
      ∧ (0 < (combinedPointAt exRows "X" "2020M02").arrivals
        → (combinedPointAt exRows "X" "2020M02").averageStay
            = (combinedPointAt exRows "X" "2020M02").overnights
                / (combinedPointAt exRows "X" "2020M02").arrivals))
    ∧ (((summarize [] (chartMonths exRows) (combinedSeries exRows "X")).sumArr = 0
        → (summarize [] (chartMonths exRows) (combinedSeries exRows "X")).avgStay = 0)
      ∧ (0 < (summarize [] (chartMonths exRows) (combinedSeries exRows "X")).sumArr
        → (summarize [] (chartMonths exRows) (combinedSeries exRows "X")).avgStay
            = (summarize [] (chartMonths exRows) (combinedSeries exRows "X")).sumOver
                / (summarize [] (chartMonths exRows) (combinedSeries exRows "X")).sumArr)) :=
  have hmem : combinedPointAt exRows "X" "2020M02"
      ∈ (deriveTourismSeries exRows [] "X").headD [] :=
    List.mem_map_of_mem (combinedPointAt exRows "X")
      (show "2020M02" ∈ chartMonths exRows by decide)
  ⟨(average_stay_division_guard exRows [] "X" [] (chartMonths exRows)
        (deriveTourismSeries exRows [] "X")).1
      (combinedSeries exRows "X") (List.mem_singleton.2 rfl) _ hmem,
    (average_stay_division_guard exRows [] "X" [] (chartMonths exRows)
        (deriveTourismSeries exRows [] "X")).2
      [summarize [] (chartMonths exRows) (combinedSeries exRows "X")]
      (by rw [brushSummaries, if_neg (by decide)]; rfl)
      _ (List.mem_singleton.2 rfl)⟩

/-! ## Claim C5 -/

/-- C5 counterexample: the selection `"Ajdovščina "` (case and whitespace
differing from the stored label `"ajdovščina"`) matches the tourism row, but
the bed row with the same label yields an empty bed series — bed matching
uses exact string equality, not the trimmed case-insensitive comparison. -/
theorem bed_row_matching_is_exact :
    (muniSeries exRows5 "X" "Ajdovščina ").map (·.month) = ["2020M01"]
    ∧ (∃ r ∈ exBeds5, normName r.municipality = normName "Ajdovščina ")
    ∧ muniBedSeries exBeds5 "Ajdovščina " = [] := by decide

/-- C5 amended: matching a selection against tourism rows is trimmed and
case-insensitive (two selections with the same normalized name yield
identical series data up to the group label), but matching against bed rows
uses exact string equality: a selection matching no bed label verbatim gets
an empty bed series even when labels match up to case/whitespace. -/
theorem tourism_matching_insensitive_bed_matching_exact
    (rows : List TourismRow) (country u v : String) (bedsData : List BedRow)
    (w : String) (h1 : normName u = normName v)
    (h2 : ∀ r ∈ bedsData, r.municipality ≠ w) :
    ((muniSeries rows country u).map
        (fun p => (p.month, p.arrivals, p.overnights, p.averageStay)))
      = ((muniSeries rows country v).map
        (fun p => (p.month, p.arrivals, p.overnights, p.averageStay)))
    ∧ muniBedSeries bedsData w = [] := by
  constructor
  · rw [muniSeries, muniSeries]
    have hfilt : rows.filter (fun d => normName d.municipality = normName u)
        = rows.filter (fun d => normName d.municipality = normName v) :=
      List.filter_congr (fun d _ => by rw [h1])
    rw [hfilt, List.map_map, List.map_map]
    exact List.map_congr_left (fun d _ => rfl)
  · rw [muniBedSeries]
    have hnil : bedsData.filter (fun d => d.municipality = w) = [] :=
      List.filter_eq_nil_iff.2 (fun a ha => by simpa using h2 a ha)
    rw [hnil]
    rfl

/-- Witness for the amended C5 at the sample data. -/
theorem tourism_matching_insensitive_bed_matching_exact_witness :
    (((muniSeries exRows5 "X" "Ajdovščina ").map
        (fun p => (p.month, p.arrivals, p.overnights, p.averageStay)))
      = ((muniSeries exRows5 "X" "ajdovščina").map
        (fun p => (p.month, p.arrivals, p.overnights, p.averageStay))))
    ∧ muniBedSeries exBeds5 "NoSuchTown" = [] :=
  tourism_matching_insensitive_bed_matching_exact exRows5 "X" "Ajdovščina " "ajdovščina"
    exBeds5 "NoSuchTown" (by decide) (by decide)

/-! ## Claim C6 -/

/-- C6 counterexample: with municipality `A` selected and `A` owning a row in
the dropped baseline month, the range query over the full chart month domain
sums `3` arrivals while the full derived series sums `8` — the baseline
point, present in the per-region series but outside the domain, is excluded
from the query. -/
theorem full_domain_query_misses_baseline_point :
    ∃ s, brushSummaries [] (chartMonths exRows6) (deriveTourismSeries exRows6 ["A"] "X")
        = some [s]
      ∧ s.sumArr
          ≠ (((deriveTourismSeries exRows6 ["A"] "X").headD []).map (·.arrivals)).sum := by
  refine ⟨summarize [] (chartMonths exRows6) (muniSeries exRows6 "X" "A"), ?_, ?_⟩
  · rw [brushSummaries, if_neg (by decide)]
    rfl
  · rw [summarize_sumArr]
    have h2 : ((muniSeries exRows6 "X" "A").filter
        (fun d => d.month ∈ chartMonths exRows6)).map (·.arrivals) = [3] := by decide
    have h1 : ((deriveTourismSeries exRows6 ["A"] "X").headD []).map (·.arrivals)
        = [5, 3] := by decide
    rw [h1, h2]
    norm_num

/-- C6 amended: a range query over the full chart month domain returns, for
each group, the sums over the points of that group whose bucket lies in the
domain; for the combined group the bucket of every point lies in the domain, so
the query equals the full-series sums of arrivals and overnights. -/
theorem full_domain_query_equals_combined_series_sum (rows : List TourismRow)
    (bedsData : List BedRow) (country : String) (h : chartMonths rows ≠ []) :
    ∃ s, brushSummaries bedsData (chartMonths rows) (deriveTourismSeries rows [] country)
        = some [s]
      ∧ s.sumArr = ((combinedSeries rows country).map (·.arrivals)).sum
      ∧ s.sumOver = ((combinedSeries rows country).map (·.overnights)).sum := by
  have hne : ¬ ((chartMonths rows).isEmpty = true) := by
    simpa [List.isEmpty_iff] using h
  have hfull : (combinedSeries rows country).filter
      (fun d => d.month ∈ chartMonths rows) = combinedSeries rows country := by
    apply List.filter_eq_self.2
    intro a ha
    rw [combinedSeries] at ha
    obtain ⟨m, hm, rfl⟩ := List.mem_map.1 ha
    rw [combinedPointAt_month]
    simpa using hm
  refine ⟨summarize bedsData (chartMonths rows) (combinedSeries rows country), ?_, ?_, ?_⟩
  · rw [deriveTourismSeries_empty_sel, brushSummaries, if_neg hne]
    rfl
  · rw [summarize_sumArr, hfull]
  · rw [summarize_sumOver, hfull]

/-- Witness for the amended C6 at the sample data. -/
theorem full_domain_query_equals_combined_series_sum_witness :
    chartMonths exRows ≠ []
    ∧ (∃ s, brushSummaries [] (chartMonths exRows) (deriveTourismSeries exRows [] "X")
          = some [s]
        ∧ s.sumArr = ((combinedSeries exRows "X").map (·.arrivals)).sum
        ∧ s.sumOver = ((combinedSeries exRows "X").map (·.overnights)).sum) :=
  ⟨by decide, full_domain_query_equals_combined_series_sum exRows [] "X" (by decide)⟩

/-! ## Claim C7 -/

/-- C7: a range query over an empty bucket list returns the distinguished
"no result" outcome (`none`, upon which the handler hides the summary
tooltip and returns), which is distinct from every produced summary list —
in particular from a summary whose sums are all zero. -/
theorem empty_range_query_returns_no_result (bedsData : List BedRow)
    (datasets : List (List SeriesPoint)) :
    brushSummaries bedsData [] datasets = none
    ∧ ∀ out : List Summary, brushSummaries bedsData [] datasets ≠ some out := by
  refine ⟨rfl, ?_⟩
  intro out h
  rw [show brushSummaries bedsData [] datasets = none from rfl] at h
  exact Option.noConfusion h

/-- Witness for C7 at concrete data, including the all-zero summary list. -/
theorem empty_range_query_returns_no_result_witness :
    brushSummaries [] [] [[dfltPoint]] = none
    ∧ brushSummaries [] [] [[dfltPoint]]
        ≠ some [{ muni := "", sumArr := 0, sumOver := 0, avgStay := 0, bedsByYear := [] }] :=
  ⟨(empty_range_query_returns_no_result [] [[dfltPoint]]).1,
    (empty_range_query_returns_no_result [] [[dfltPoint]]).2 _⟩

/-! ## Claim C8 -/

/-- C8 (code bug): station `s1` is selected, then `s2` is selected before
the fetch of `s1` resolves; when the fetch of `s1` completes, the handler
still commits the rows of `s1` as the active weather data and the first
numeric column of `s1` as the
active attribute, although the active station is `s2` — there is no check
that the originally requested station is still active. -/
theorem stale_fetch_result_is_committed :
    (wrun env8 initW [WEvent.click "s1", WEvent.click "s2",
        WEvent.resolve "s1"]).activeWeatherStation = some "s2"
    ∧ (wrun env8 initW [WEvent.click "s1", WEvent.click "s2",
        WEvent.resolve "s1"]).activeWeatherData = some [w1]
    ∧ (wrun env8 initW [WEvent.click "s1", WEvent.click "s2",
        WEvent.resolve "s1"]).activeWeatherAttribute = some "temperature"
    ∧ env8 "s1" = FetchResult.success [w1] := ⟨rfl, rfl, rfl, rfl⟩

/-! ## Claim C9 -/

/-- C9 counterexample: after station `s0` loads successfully, selecting
station `s1` whose fetch fails leaves the data and attribute of the previous
station active
attribute active — `activeWeatherAttribute` is not `none` and the derived
weather data is not empty, contrary to the claim. -/
theorem failed_fetch_keeps_previous_station_data :
    (wrun env9 initW [WEvent.click "s0", WEvent.resolve "s0", WEvent.click "s1",
        WEvent.resolve "s1"]).activeWeatherStation = some "s1"
    ∧ (wrun env9 initW [WEvent.click "s0", WEvent.resolve "s0", WEvent.click "s1",
        WEvent.resolve "s1"]).activeWeatherAttribute ≠ none
    ∧ (wrun env9 initW [WEvent.click "s0", WEvent.resolve "s0", WEvent.click "s1",
        WEvent.resolve "s1"]).activeWeatherData ≠ none := by
  refine ⟨rfl, ?_, ?_⟩ <;> decide

/-- C9 amended: when the fetch for a newly selected station fails, the
station stays selected, exactly one diagnostic is emitted, no exception
propagates (the handler is a total step function), and the active weather
data and attribute keep their previous values — they are empty only if
nothing had been loaded before. -/
theorem fetch_failure_preserves_prior_data (env : String → FetchResult) (st0 : WState)
    (s : String) (henv : env s = FetchResult.failure)
    (hact : st0.activeWeatherStation ≠ some s) :
    (wrun env st0 [WEvent.click s, WEvent.resolve s]).activeWeatherStation = some s
    ∧ (wrun env st0 [WEvent.click s, WEvent.resolve s]).activeWeatherData
        = st0.activeWeatherData
    ∧ (wrun env st0 [WEvent.click s, WEvent.resolve s]).activeWeatherAttribute
        = st0.activeWeatherAttribute
    ∧ (wrun env st0 [WEvent.click s, WEvent.resolve s]).diagnostics
        = st0.diagnostics + 1 := by
  have hstep1 : wstep env st0 (WEvent.click s)
      = { st0 with showWeather := true, activeWeatherStation := some s,
                   pending := st0.pending ++ [s] } := by
    rw [wstep, if_neg hact]
  have hload : loadWeatherCSV env s = (none, 1) := by
    rw [loadWeatherCSV, henv]
  have hmem : s ∈ st0.pending ++ [s] := by simp
  simp only [wrun, List.foldl, hstep1]
  rw [wstep]
  simp only [if_pos hmem, hload]
  exact ⟨trivial, trivial, trivial, trivial⟩

/-- Witness for the amended C9: from the state where `s0` is loaded, a
failing `s1` selection keeps the data and attribute of `s0`. -/
theorem fetch_failure_preserves_prior_data_witness :
    (wrun env9 stW [WEvent.click "s1", WEvent.resolve "s1"]).activeWeatherStation = some "s1"
    ∧ (wrun env9 stW [WEvent.click "s1", WEvent.resolve "s1"]).activeWeatherData
        = stW.activeWeatherData
    ∧ (wrun env9 stW [WEvent.click "s1", WEvent.resolve "s1"]).activeWeatherAttribute
        = stW.activeWeatherAttribute
    ∧ (wrun env9 stW [WEvent.click "s1", WEvent.resolve "s1"]).diagnostics
        = stW.diagnostics + 1 :=
  fetch_failure_preserves_prior_data env9 stW "s1" rfl (by decide)

/-! ## Claim C10 -/

/-- C10 counterexample: selecting a station does not leave the layer toggles
unchanged — it force-enables the Weather layer toggle. -/
theorem select_station_flips_weather_layer :
    (wstep env0 stC10 (WEvent.click "bilje")).showWeather ≠ stC10.showWeather := by
  decide

/-- C10 amended: the synchronous part of a station selection (before the
fetch resolves) sets the active station, force-enables the Weather layer
toggle, registers the pending fetch, and changes nothing else: the four
metric layer toggles, the loaded data/attribute, the discovered attribute
list and the diagnostics count are untouched, and no recomputation of
tourism or bed datasets is triggered by it. -/
theorem select_station_frame_effect (env : String → FetchResult) (st0 : WState)
    (s : String) (hact : st0.activeWeatherStation ≠ some s) :
    (wstep env st0 (WEvent.click s)).activeWeatherStation = some s
    ∧ (wstep env st0 (WEvent.click s)).showWeather = true
    ∧ (wstep env st0 (WEvent.click s)).showArrivals = st0.showArrivals
    ∧ (wstep env st0 (WEvent.click s)).showOvernights = st0.showOvernights
    ∧ (wstep env st0 (WEvent.click s)).showAverageStays = st0.showAverageStays
    ∧ (wstep env st0 (WEvent.click s)).showBeds = st0.showBeds
    ∧ (wstep env st0 (WEvent.click s)).activeWeatherData = st0.activeWeatherData
    ∧ (wstep env st0 (WEvent.click s)).activeWeatherAttribute = st0.activeWeatherAttribute
    ∧ (wstep env st0 (WEvent.click s)).weatherAttributes = st0.weatherAttributes
    ∧ (wstep env st0 (WEvent.click s)).diagnostics = st0.diagnostics
    ∧ (wstep env st0 (WEvent.click s)).pending = st0.pending ++ [s] := by
  rw [wstep, if_neg hact]
  exact ⟨rfl, rfl, rfl, rfl, rfl, rfl, rfl, rfl, rfl, rfl, rfl⟩

/-- Witness for the amended C10 at a concrete state. -/
theorem select_station_frame_effect_witness :
    (wstep env0 stC10 (WEvent.click "bilje")).activeWeatherStation = some "bilje"
    ∧ (wstep env0 stC10 (WEvent.click "bilje")).showWeather = true
    ∧ (wstep env0 stC10 (WEvent.click "bilje")).showArrivals = stC10.showArrivals
    ∧ (wstep env0 stC10 (WEvent.click "bilje")).showOvernights = stC10.showOvernights
    ∧ (wstep env0 stC10 (WEvent.click "bilje")).showAverageStays = stC10.showAverageStays
    ∧ (wstep env0 stC10 (WEvent.click "bilje")).showBeds = stC10.showBeds
    ∧ (wstep env0 stC10 (WEvent.click "bilje")).activeWeatherData = stC10.activeWeatherData
    ∧ (wstep env0 stC10 (WEvent.click "bilje")).activeWeatherAttribute
        = stC10.activeWeatherAttribute
    ∧ (wstep env0 stC10 (WEvent.click "bilje")).weatherAttributes = stC10.weatherAttributes
    ∧ (wstep env0 stC10 (WEvent.click "bilje")).diagnostics = stC10.diagnostics
    ∧ (wstep env0 stC10 (WEvent.click "bilje")).pending = stC10.pending ++ ["bilje"] :=
  select_station_frame_effect env0 stC10 "bilje" (by decide)

end Vipava
